import Mathlib

/-!
Verification of the Change Reconciliation and Confidence-Gated Dispatch
Engine: a shallow embedding of the dispatcher
(`src/dispatcher/actions.py`, `src/dispatcher/budget_api.py`), the
snapshot differ (`src/ingestion/parser.py`), the state resolver
(`src/librarian/state_queries.py`) and the reasoning-gateway response
extraction (`src/reasoner/claude_client.py`), with theorems settling the
specification claims about them.

Modelling conventions:
* Python floats are modelled as rational numbers (`ℚ`); none of the
  verified properties depend on binary floating-point rounding.
* Python dictionaries are modelled as association lists with Python's
  insertion-order semantics: inserting an existing key overwrites the
  value in place, a fresh key is appended at the end (`insertD` below).
* A recommendation dictionary is modelled as a record of `Option`
  fields; `Option.getD` models Python's `dict.get(key, default)`.
* Log statements, timestamps and file I/O are omitted: they are not
  observable by any claim.  The budget ledger file is modelled as an
  explicit `BudgetState` value threaded through the dispatcher; the
  `try/except` wrappers in `ActionDispatcher.dispatch` only catch
  file-I/O errors, which do not exist in this pure model.
* Result messages built by f-string formatting are modelled by the
  inductive `Msg`, which keeps the formatted data; distinct message
  templates map to distinct constructors.
-/

namespace ContextEngine

/-- The reasoning passed to `MockBudgetAPI.flag_for_approval`: either the
recommendation's own reasoning string (the `flag_for_approval` /
`requires_human` branch of `ActionDispatcher.dispatch`), or the
low-confidence message produced by
`ActionDispatcher._format_confidence_message` prefixed to it (the
confidence-too-low branch).  The f-string formatting is modelled by
keeping the formatted data.  `rawNone` is the gateway path passing the
raw Python `None` rationale straight through to `flag_for_approval`
(stored as `None` in the pending change). -/
inductive FlagReasoning where
  | plain (reasoning : String)
  | lowConfidence (claude_confidence : ℚ) (extraction_confidence : Option ℚ) (reasoning : String)
  | rawNone
  deriving DecidableEq

/-- `budget_api.PendingChange` (the timestamp field is omitted; it is not
observable by any claim).  `reasoning` is `none` for entries appended by
`update_budget` and `some r` for entries appended by
`flag_for_approval`. -/
structure PendingChange where
  asset_id : String
  delta : ℚ
  status : String
  reasoning : Option FlagReasoning
  deriving DecidableEq

/-- `budget_api.BudgetLineItem`. -/
structure LineItem where
  code : String
  description : String
  allocated : ℚ
  spent : ℚ
  pending_changes : List PendingChange
  deriving DecidableEq

/-- `budget_api.BudgetState` (the `last_updated` timestamp is omitted). -/
structure BudgetState where
  project_id : String
  line_items : List LineItem
  deriving DecidableEq

/-- Apply `f` to the first line item with the given code, as the
`for item in budget.line_items: if item.code == code: ... break` loops in
`MockBudgetAPI.update_budget` / `flag_for_approval` do. -/
def update_line (items : List LineItem) (code : String) (f : LineItem → LineItem) :
    List LineItem :=
  match items with
  | [] => []
  | item :: rest =>
    if item.code = code then f item :: rest else item :: update_line rest code f

/-- `MockBudgetAPI.update_budget`: returns `False` (unchanged state) when
the line item is missing; otherwise adds `delta` to `spent` when
`auto_approved`, else appends a pending change without reasoning. -/
def update_budget (b : BudgetState) (code : String) (delta : ℚ) (asset_id : String)
    (auto_approved : Bool) : Bool × BudgetState :=
  if (b.line_items.find? (fun item => item.code == code)).isSome then
    (true,
      { b with line_items := update_line b.line_items code (fun item =>
          if auto_approved then { item with spent := item.spent + delta }
          else { item with pending_changes :=
                  item.pending_changes ++ [⟨asset_id, delta, "pending_approval", none⟩] }) })
  else
    (false, b)

/-- `MockBudgetAPI.flag_for_approval`: returns `False` (unchanged state)
when the line item is missing; otherwise appends a pending change
carrying the reasoning. -/
def flag_for_approval (b : BudgetState) (code : String) (delta : ℚ) (asset_id : String)
    (reasoning : FlagReasoning) : Bool × BudgetState :=
  if (b.line_items.find? (fun item => item.code == code)).isSome then
    (true,
      { b with line_items := update_line b.line_items code (fun item =>
          { item with pending_changes :=
              item.pending_changes ++ [⟨asset_id, delta, "pending_approval", some reasoning⟩] }) })
  else
    (false, b)

/-- A call issued by the dispatcher against the budget ledger API.  The
dispatch theorems observe these calls, so that "issues an auto-approved
budget update" is `BudgetCall.updateBudget _ _ _ true` appearing in the
call trace. -/
inductive BudgetCall where
  | updateBudget (code : String) (delta : ℚ) (asset_id : String) (auto_approved : Bool)
  | flagForApproval (code : String) (delta : ℚ) (asset_id : String) (reasoning : FlagReasoning)
  deriving DecidableEq

/-- `recommendation` dictionary as read by `ActionDispatcher.dispatch`
via `dict.get`: every field may be absent. -/
structure Recommendation where
  action_type : Option String
  requires_human : Option Bool
  confidence_score : Option ℚ
  reasoning : Option String
  recommended_budget_code : Option String
  deriving DecidableEq

/-- The `result['message']` strings of `ActionDispatcher.dispatch`,
modelled as an inductive keeping the formatted data.
`errorDispatching` is the `except` handler's
`"Error dispatching action: ..."` message; it is reachable only on the
gateway path (a `None` confidence score raising `TypeError` in the
threshold comparison) — the budget-API model itself raises nothing. -/
inductive Msg where
  | empty
  | budgetUpdated (cost_impact : ℚ)
  | failedUpdate
  | flaggedLowConfidence
  | flaggedHuman
  | unknownAction (action_type : Option String)
  | errorDispatching
  deriving DecidableEq

/-- The result dictionary built by `ActionDispatcher.dispatch`. -/
structure DispatchResult where
  asset_id : String
  action_type : Option String
  requires_human : Bool
  claude_confidence : ℚ
  extraction_confidence : Option ℚ
  reasoning : String
  success : Bool
  message : Msg
  deriving DecidableEq

/-- One dispatch: the returned result dictionary, the budget state after
the dispatch, and the trace of budget-API calls issued. -/
structure DispatchStep where
  result : DispatchResult
  budget : BudgetState
  calls : List BudgetCall
  deriving DecidableEq

/-- The combined confidence of `BaseDispatcher._should_auto_approve`
(lines 185-189): the minimum of both signals when extraction confidence
is present, the reasoning confidence alone otherwise. -/
def combined_confidence (claude_confidence : ℚ) (extraction_confidence : Option ℚ) : ℚ :=
  match extraction_confidence with
  | some e => min claude_confidence e
  | none => claude_confidence

/-- `BaseDispatcher._should_auto_approve`. -/
def should_auto_approve (threshold claude_confidence : ℚ) (extraction_confidence : Option ℚ)
    (requires_human : Bool) : Bool :=
  if requires_human then false
  else decide (threshold ≤ combined_confidence claude_confidence extraction_confidence)

/-- `ActionDispatcher.dispatch` (lines 217-319), with the dispatcher's
`min_confidence_threshold` as first argument and the budget state
threaded explicitly. -/
def dispatch (threshold : ℚ) (b : BudgetState) (rec : Recommendation)
    (asset_id budget_code : String) (cost_impact : ℚ)
    (extraction_confidence : Option ℚ) : DispatchStep :=
  let action_type := rec.action_type
  let requires_human := rec.requires_human.getD true
  let claude_confidence := rec.confidence_score.getD 0
  let reasoning := rec.reasoning.getD "No reasoning provided"
  let base : DispatchResult :=
    { asset_id := asset_id, action_type := action_type, requires_human := requires_human,
      claude_confidence := claude_confidence, extraction_confidence := extraction_confidence,
      reasoning := reasoning, success := false, message := Msg.empty }
  if action_type = some "update_budget" ∧ requires_human = false then
    if should_auto_approve threshold claude_confidence extraction_confidence requires_human then
      let u := update_budget b budget_code cost_impact asset_id true
      if u.1 then
        ⟨{ base with success := true, message := Msg.budgetUpdated cost_impact }, u.2,
          [BudgetCall.updateBudget budget_code cost_impact asset_id true]⟩
      else
        ⟨{ base with message := Msg.failedUpdate }, u.2,
          [BudgetCall.updateBudget budget_code cost_impact asset_id true]⟩
    else
      let f := flag_for_approval b budget_code cost_impact asset_id
        (FlagReasoning.lowConfidence claude_confidence extraction_confidence reasoning)
      ⟨{ base with requires_human := true, success := f.1, message := Msg.flaggedLowConfidence },
        f.2,
        [BudgetCall.flagForApproval budget_code cost_impact asset_id
          (FlagReasoning.lowConfidence claude_confidence extraction_confidence reasoning)]⟩
  else if action_type = some "flag_for_approval" ∨ requires_human = true then
    let f := flag_for_approval b budget_code cost_impact asset_id (FlagReasoning.plain reasoning)
    ⟨{ base with success := f.1, message := Msg.flaggedHuman }, f.2,
      [BudgetCall.flagForApproval budget_code cost_impact asset_id (FlagReasoning.plain reasoning)]⟩
  else
    ⟨{ base with message := Msg.unknownAction action_type }, b, []⟩

/-- Python `zip` over five lists: truncates to the shortest list. -/
def zip5 {α β γ δ ε : Type} :
    List α → List β → List γ → List δ → List ε → List (α × β × γ × δ × ε)
  | a :: la, b :: lb, c :: lc, d :: ld, e :: le => (a, b, c, d, e) :: zip5 la lb lc ld le
  | _, _, _, _, _ => []

/-- The `for ... in zip(...)` loop body of
`ActionDispatcher.dispatch_batch`: dispatches each zipped argument tuple
in order, threading the budget state and appending each result. -/
def dispatch_batch_go (threshold : ℚ) :
    BudgetState × List DispatchResult →
    List (Recommendation × String × String × ℚ × Option ℚ) →
    BudgetState × List DispatchResult
  | acc, [] => acc
  | acc, arg :: rest =>
    let step := dispatch threshold acc.1 arg.1 arg.2.1 arg.2.2.1 arg.2.2.2.1 arg.2.2.2.2
    dispatch_batch_go threshold (step.budget, acc.2 ++ [step.result]) rest

/-- `ActionDispatcher.dispatch_batch` (lines 321-360): when no extraction
confidences are supplied, a list of `None` of the recommendations'
length is used; the five lists are then zipped (truncating to the
shortest) and dispatched in order, threading the budget state. -/
def dispatch_batch (threshold : ℚ) (b : BudgetState)
    (recommendations : List Recommendation) (asset_ids budget_codes : List String)
    (cost_impacts : List ℚ) (extraction_confidences : Option (List ℚ)) :
    BudgetState × List DispatchResult :=
  let ecs : List (Option ℚ) :=
    match extraction_confidences with
    | none => List.replicate recommendations.length none
    | some l => l.map some
  dispatch_batch_go threshold (b, [])
    (zip5 recommendations asset_ids budget_codes cost_impacts ecs)

/-- An auto-approved budget update appears in a call trace. -/
def has_auto_commit (calls : List BudgetCall) : Prop :=
  ∃ code delta asset_id, BudgetCall.updateBudget code delta asset_id true ∈ calls

/-- A concrete budget state used by the witnesses (the default budget of
`MockBudgetAPI._create_default_budget`, without timestamps). -/
def budgetW : BudgetState :=
  ⟨"proj_001",
    [⟨"B47", "Cast-in-Place Concrete", 50000, 30000, []⟩,
     ⟨"B48", "Structural Steel Framing", 75000, 45000, []⟩]⟩

/-- A concrete recommendation with `requires_human = True` and very high
confidence, for the C2 witness. -/
def recHumanW : Recommendation :=
  ⟨some "update_budget", some true, some (99/100), some "large change", none⟩

/-- A concrete recommendation whose dictionary omits `requires_human`,
for the C9 witness. -/
def recNoFlagW : Recommendation :=
  ⟨some "update_budget", none, some (99/100), some "large change", none⟩

/-- The `ActionType` enumeration values of `dispatcher/actions.py`
(lines 18-23). -/
def recognized_action_types : List String :=
  ["update_budget", "flag_for_approval", "notify_stakeholder", "create_change_order"]

/-- The `block.input` dictionary of a tool-use content block, projected
to the five keys read by `ClaudeClient._extract_recommendation` (each
read with `dict.get`, hence optional). -/
structure ToolInput where
  action_type : Option String
  requires_human : Option Bool
  confidence_score : Option ℚ
  reasoning : Option String
  recommended_budget_code : Option String
  deriving DecidableEq

/-- A content block of the reasoning service's response message. -/
inductive ContentBlock where
  | text (s : String)
  | toolUse (name : String) (input : ToolInput)
  deriving DecidableEq

/-- The recommendation dictionary built by
`ClaudeClient._extract_recommendation` (lines 104-110).  Every one of
the five keys is always PRESENT in this dictionary; a field the tool
input lacks is stored with value Python `None` (`none` here).  Because
the keys are present, `dict.get(key, default)` in
`ActionDispatcher.dispatch` returns the stored value — possibly `None` —
and its defaults never fire on the gateway path.  This is distinct from
`Recommendation`, which models a dictionary whose keys may be absent. -/
structure GatewayRecommendation where
  action_type : Option String
  requires_human : Option Bool
  confidence_score : Option ℚ
  reasoning : Option String
  recommended_budget_code : Option String
  deriving DecidableEq

/-- The recommendation dictionary that
`ClaudeClient._extract_recommendation` builds from a tool-use block's
input: each of the five keys is emitted with `block.input.get(key)`
(Python `None` when the input lacks it), with no validation of enum
membership, numeric range, or presence. -/
def rec_of_input (input : ToolInput) : GatewayRecommendation :=
  ⟨input.action_type, input.requires_human, input.confidence_score, input.reasoning,
    input.recommended_budget_code⟩

/-- `ClaudeClient._extract_recommendation` (lines 90-115): returns the
first `recommend_action` tool-use block's fields, or `none` when no such
block exists. -/
def extract_recommendation : List ContentBlock → Option GatewayRecommendation
  | [] => none
  | ContentBlock.toolUse n input :: rest =>
    if n = "recommend_action" then some (rec_of_input input) else extract_recommendation rest
  | ContentBlock.text _ :: rest => extract_recommendation rest

/-- Python truthiness of the raw `requires_human` value on the gateway
path: `None` and `False` are falsy, only `True` is truthy. -/
def truthy : Option Bool → Bool
  | some true => true
  | _ => false

/-- Python f-string rendering of an optional string (`None` prints as
`"None"`), used when the raw rationale is interpolated into the
low-confidence message. -/
def format_py_opt : Option String → String
  | some s => s
  | none => "None"

/-- The raw rationale value passed to `flag_for_approval` by the
`elif`/`requires_human` branch on the gateway path: a string, or the
stored Python `None`. -/
def plain_reasoning : Option String → FlagReasoning
  | some s => FlagReasoning.plain s
  | none => FlagReasoning.rawNone

/-- The result dictionary of `ActionDispatcher.dispatch` on the gateway
path, where `requires_human`, `claude_confidence` and `reasoning` hold
the raw — possibly `None` — values read from the always-present keys. -/
structure GatewayDispatchResult where
  asset_id : String
  action_type : Option String
  requires_human : Option Bool
  claude_confidence : Option ℚ
  extraction_confidence : Option ℚ
  reasoning : Option String
  success : Bool
  message : Msg
  deriving DecidableEq

/-- One gateway-path dispatch: result, budget state after, issued
calls. -/
structure GatewayDispatchStep where
  result : GatewayDispatchResult
  budget : BudgetState
  calls : List BudgetCall
  deriving DecidableEq

/-- `ActionDispatcher.dispatch` (lines 217-319) applied to a
recommendation dictionary produced by
`ClaudeClient._extract_recommendation`: every key is present, so the
`dict.get` defaults never fire and the raw — possibly `None` — values
flow through.  A `None` `requires_human` is falsy, so
`not requires_human` holds and the auto-commit branch is reachable.  A
`None` `confidence_score` reaching `_should_auto_approve` raises
`TypeError` in the `min`/`>=` comparison, which the surrounding
`except` handler catches: the result becomes an unsuccessful
error-message result with no ledger call.  In the confidence-too-low
branch the confidence is necessarily a number (the comparison
succeeded), so `_format_confidence_message` raises nothing there. -/
def dispatch_gateway (threshold : ℚ) (b : BudgetState) (grec : GatewayRecommendation)
    (asset_id budget_code : String) (cost_impact : ℚ)
    (extraction_confidence : Option ℚ) : GatewayDispatchStep :=
  let action_type := grec.action_type
  let requires_human := grec.requires_human
  let claude_confidence := grec.confidence_score
  let reasoning := grec.reasoning
  let base : GatewayDispatchResult :=
    { asset_id := asset_id, action_type := action_type, requires_human := requires_human,
      claude_confidence := claude_confidence, extraction_confidence := extraction_confidence,
      reasoning := reasoning, success := false, message := Msg.empty }
  if action_type = some "update_budget" ∧ truthy requires_human = false then
    match claude_confidence with
    | none => ⟨{ base with message := Msg.errorDispatching }, b, []⟩
    | some c =>
      if should_auto_approve threshold c extraction_confidence false then
        let u := update_budget b budget_code cost_impact asset_id true
        if u.1 then
          ⟨{ base with success := true, message := Msg.budgetUpdated cost_impact }, u.2,
            [BudgetCall.updateBudget budget_code cost_impact asset_id true]⟩
        else
          ⟨{ base with message := Msg.failedUpdate }, u.2,
            [BudgetCall.updateBudget budget_code cost_impact asset_id true]⟩
      else
        let f := flag_for_approval b budget_code cost_impact asset_id
          (FlagReasoning.lowConfidence c extraction_confidence (format_py_opt reasoning))
        ⟨{ base with requires_human := some true, success := f.1, message := Msg.flaggedLowConfidence },
          f.2,
          [BudgetCall.flagForApproval budget_code cost_impact asset_id
            (FlagReasoning.lowConfidence c extraction_confidence (format_py_opt reasoning))]⟩
  else if action_type = some "flag_for_approval" ∨ truthy requires_human = true then
    let f := flag_for_approval b budget_code cost_impact asset_id (plain_reasoning reasoning)
    ⟨{ base with success := f.1, message := Msg.flaggedHuman }, f.2,
      [BudgetCall.flagForApproval budget_code cost_impact asset_id (plain_reasoning reasoning)]⟩
  else
    ⟨{ base with message := Msg.unknownAction action_type }, b, []⟩

/-- A tool input with a missing rationale and an out-of-range confidence
score (2.0), for the C7 counterexample. -/
def badInputW : ToolInput := ⟨some "update_budget", some false, some 2, none, none⟩

/-- The gateway recommendation extracted from `badInputW`: all five keys
present, the rationale stored as `None`. -/
def badRecW : GatewayRecommendation := rec_of_input badInputW

/-- A tool input lacking both `requires_human` and `reasoning` with an
out-of-range confidence, for the C7 witness: the emitted `None`
human-required flag is falsy, so the change can still auto-commit. -/
def rhNoneInputW : ToolInput := ⟨some "update_budget", none, some 2, none, none⟩

/-- A recommendation with an unrecognized action kind and
`requires_human = True`, for the C8 counterexample. -/
def recUnknownHumanW : Recommendation :=
  ⟨some "bogus_action", some true, some (9/10), some "odd", none⟩

/-- A recommendation with an unrecognized action kind and
`requires_human = False`, for the C8 witness. -/
def recUnknownNoHumanW : Recommendation :=
  ⟨some "bogus_action", some false, some (9/10), some "odd", none⟩

/-- A dimensions dictionary (`Optional[Dict[str, float]]` values of
`BlueprintAsset.dimensions`), as an association list. -/
abbrev DimMap := List (String × ℚ)

/-- First-match association-list lookup.  All lookups in this
development are performed on lists with pairwise-distinct keys (the
items of a Python dict), where first-match and last-match coincide. -/
def lookupD {α : Type} : List (String × α) → String → Option α
  | [], _ => none
  | (k, v) :: rest, i => if i = k then some v else lookupD rest i

/-- Python dictionary equality for dimension dictionaries: same keys and
the same value at every key. -/
def dict_eq (d1 d2 : DimMap) : Bool :=
  d1.all (fun kv => decide (lookupD d2 kv.1 = some kv.2)) &&
  d2.all (fun kv => decide (lookupD d1 kv.1 = some kv.2))

/-- Python `==` on `Optional[Dict[str, float]]` (absence equals only
absence). -/
def dims_eq : Option DimMap → Option DimMap → Bool
  | none, none => true
  | some d1, some d2 => dict_eq d1 d2
  | _, _ => false

/-- `ingestion.parser.BlueprintAsset`. -/
structure BlueprintAsset where
  id : String
  type : String
  material : String
  quantity : ℚ
  unit : String
  floor : String
  dimensions : Option DimMap
  confidence_score : ℚ
  deriving DecidableEq

/-- `ingestion.parser.BlueprintData`. -/
structure BlueprintData where
  blueprint_id : String
  project_id : String
  revision : String
  date : String
  assets : List BlueprintAsset
  extraction_confidence : ℚ
  parser_source : String
  deriving DecidableEq

/-- Python dict insertion: overwrites the value of an existing key in
place (the key keeps its position), appends a fresh key at the end. -/
def insertD {α : Type} : List (String × α) → String → α → List (String × α)
  | [], k, v => [(k, v)]
  | (k0, v0) :: rest, k, v =>
    if k0 = k then (k0, v) :: rest else (k0, v0) :: insertD rest k v

/-- The identifier-keyed lookup dictionaries of
`BlueprintParser.compare_blueprints` (lines 381-382):
`{asset.id: asset for asset in assets}`.  The result is the dict's
item list: keys in first-occurrence order, last value winning. -/
def build_lookup (assets : List BlueprintAsset) : List (String × BlueprintAsset) :=
  assets.foldl (fun d a => insertD d a.id a) []

/-- `BlueprintParser._assets_differ` (lines 419-425). -/
def assets_differ (before after : BlueprintAsset) : Bool :=
  decide (before.quantity ≠ after.quantity) ||
  decide (before.material ≠ after.material) ||
  decide (before.type ≠ after.type) ||
  !(dims_eq before.dimensions after.dimensions)

/-- The `changes['quantity']` entry of
`BlueprintParser._get_asset_changes`. -/
structure QuantityChange where
  before : ℚ
  after : ℚ
  delta : ℚ
  deriving DecidableEq

/-- A `before`/`after` string-field change entry of
`BlueprintParser._get_asset_changes`. -/
structure StrChange where
  before : String
  after : String
  deriving DecidableEq

/-- The `changes['dimensions']` entry of
`BlueprintParser._get_asset_changes`. -/
structure DimsChange where
  before : Option DimMap
  after : Option DimMap
  deriving DecidableEq

/-- The changes dictionary built by `BlueprintParser._get_asset_changes`
(lines 427-456): a key is present exactly when the corresponding branch
ran. -/
structure AssetChanges where
  quantity : Option QuantityChange
  material : Option StrChange
  type : Option StrChange
  dimensions : Option DimsChange
  deriving DecidableEq

/-- `BlueprintParser._get_asset_changes`. -/
def get_asset_changes (before after : BlueprintAsset) : AssetChanges :=
  { quantity :=
      if before.quantity ≠ after.quantity then
        some ⟨before.quantity, after.quantity, after.quantity - before.quantity⟩
      else none,
    material :=
      if before.material ≠ after.material then some ⟨before.material, after.material⟩
      else none,
    type :=
      if before.type ≠ after.type then some ⟨before.type, after.type⟩
      else none,
    dimensions :=
      if dims_eq before.dimensions after.dimensions then none
      else some ⟨before.dimensions, after.dimensions⟩ }

/-- One entry of the `modified` list of
`BlueprintParser.compare_blueprints`. -/
structure ModifiedRecord where
  asset_id : String
  before : BlueprintAsset
  after : BlueprintAsset
  changes : AssetChanges
  deriving DecidableEq

/-- The `summary` dictionary of `BlueprintParser.compare_blueprints`. -/
structure ChangeSummary where
  added_count : Nat
  removed_count : Nat
  modified_count : Nat
  deriving DecidableEq

/-- The change set returned by `BlueprintParser.compare_blueprints`. -/
structure BlueprintChanges where
  added : List BlueprintAsset
  removed : List BlueprintAsset
  modified : List ModifiedRecord
  summary : ChangeSummary
  deriving DecidableEq

/-- The body of `BlueprintParser.compare_blueprints` after the two
lookup dictionaries are built (lines 384-414): `added` iterates the
after dict's items keeping identifiers absent from `before`; `removed`
symmetrically; `modified` iterates the after dict's items whose
identifier is present in `before` and whose tracked fields differ. -/
def compare_core (before_assets after_assets : List (String × BlueprintAsset)) :
    BlueprintChanges :=
  let added := (after_assets.filter (fun kv => (lookupD before_assets kv.1).isNone)).map Prod.snd
  let removed :=
    (before_assets.filter (fun kv => (lookupD after_assets kv.1).isNone)).map Prod.snd
  let modified := after_assets.filterMap (fun kv =>
    match lookupD before_assets kv.1 with
    | some b =>
      if assets_differ b kv.2 then some ⟨kv.1, b, kv.2, get_asset_changes b kv.2⟩ else none
    | none => none)
  ⟨added, removed, modified, ⟨added.length, removed.length, modified.length⟩⟩

/-- `BlueprintParser.compare_blueprints` (lines 367-417).  The function
is total: no identifier-uniqueness validation exists in the source and
no error path is reachable. -/
def compare_blueprints (before after : BlueprintData) : BlueprintChanges :=
  compare_core (build_lookup before.assets) (build_lookup after.assets)

/-- The value list of the identifier dictionary: for each identifier its
last asset, at the identifier's first position. -/
def dict_values (assets : List BlueprintAsset) : List BlueprintAsset :=
  (build_lookup assets).map Prod.snd

/-- Two assets sharing the identifier `Wall_A` (first occurrence,
discarded by the dict build) for the C3 counterexample. -/
def dupAssetA1 : BlueprintAsset := ⟨"Wall_A", "Wall", "Concrete", 1, "sqft", "F1", none, 1⟩

/-- Two assets sharing the identifier `Wall_A` (last occurrence, the one
the dict keeps) for the C3 counterexample. -/
def dupAssetA2 : BlueprintAsset := ⟨"Wall_A", "Wall", "Steel", 1, "sqft", "F1", none, 1⟩

/-- The after-snapshot's `Wall_A`, with a changed material, for the C3
counterexample. -/
def afterAssetA : BlueprintAsset := ⟨"Wall_A", "Wall", "Timber", 1, "sqft", "F1", none, 1⟩

/-- A snapshot with a duplicated identifier, for the C3
counterexample. -/
def dupSnapW : BlueprintData :=
  ⟨"bp1", "p1", "A", "2024-01-01", [dupAssetA1, dupAssetA2], 1, "mock"⟩

/-- A well-formed after-snapshot, for the C3 counterexample. -/
def afterSnapW : BlueprintData :=
  ⟨"bp2", "p1", "B", "2024-01-02", [afterAssetA], 1, "mock"⟩

/-- `Wall_A` at quantity 400 (the spec's C4 scenario, before). -/
def wallBeforeW : BlueprintAsset := ⟨"Wall_A", "Wall", "Concrete", 400, "sqft", "F1", none, 1⟩

/-- `Wall_A` at quantity 500 (the spec's C4 scenario, after). -/
def wallAfterW : BlueprintAsset := ⟨"Wall_A", "Wall", "Concrete", 500, "sqft", "F1", none, 1⟩

/-- The new `HVAC_1` asset of the spec's C4 scenario. -/
def hvacW : BlueprintAsset := ⟨"HVAC_1", "HVAC", "Steel", 1, "unit", "F1", none, 1⟩

/-- Before-snapshot of the spec's C4 scenario. -/
def beforeSnapC4W : BlueprintData := ⟨"bp1", "p1", "A", "2024-01-01", [wallBeforeW], 1, "mock"⟩

/-- After-snapshot of the spec's C4 scenario. -/
def afterSnapC4W : BlueprintData :=
  ⟨"bp1", "p1", "B", "2024-01-02", [wallAfterW, hvacW], 1, "mock"⟩

/-- An asset `X`, for the C5 counterexample. -/
def assetX : BlueprintAsset := ⟨"X", "Wall", "Concrete", 1, "sqft", "F1", none, 1⟩

/-- An asset `Y`, for the C5 counterexample. -/
def assetY : BlueprintAsset := ⟨"Y", "Beam", "Steel", 1, "linear_ft", "F1", none, 1⟩

/-- An empty before-snapshot, for the C5 counterexample. -/
def emptySnapW : BlueprintData := ⟨"bp0", "p1", "A", "2024-01-01", [], 1, "mock"⟩

/-- An after-snapshot listing `X` then `Y`, for the C5 counterexample. -/
def snapXYW : BlueprintData := ⟨"bp1", "p1", "A", "2024-01-01", [assetX, assetY], 1, "mock"⟩

/-- The same after-snapshot with its asset list permuted (`Y` then `X`),
for the C5 counterexample. -/
def snapYXW : BlueprintData := ⟨"bp1", "p1", "A", "2024-01-01", [assetY, assetX], 1, "mock"⟩

/-- The properties of a persisted `Object` node, each read by
`StateQueries.calculate_delta` with `dict.get` (hence optional, with
numeric defaults applied at the read site as in the source). -/
structure ObjProps where
  quantity : Option ℚ
  material : Option String
  cost_per_unit : Option ℚ
  total_cost : Option ℚ
  deriving DecidableEq

/-- The state dictionary returned by `StateQueries.get_object_state`:
the object's properties plus its line-item and vendor context (opaque
identifiers here — `calculate_delta` passes them through untouched). -/
structure ObjectState where
  object : ObjProps
  lineitem : Option String
  vendor : Option String
  deriving DecidableEq

/-- `StateQueries.get_object_state`, with the graph store modelled as an
association list from object id to state: the Cypher `MATCH` on the id
returns `None` when the object is absent and the state otherwise. -/
def get_object_state (store : List (String × ObjectState)) (object_id : String) :
    Option ObjectState :=
  lookupD store object_id

/-- The existing-entity case of the delta dictionary built by
`StateQueries.calculate_delta` (lines 113-129). -/
structure ExistingDelta where
  object_id : String
  current_quantity : ℚ
  new_quantity : ℚ
  quantity_delta : ℚ
  current_material : Option String
  new_material : Option String
  material_changed : Bool
  cost_per_unit : ℚ
  cost_impact : ℚ
  current_total_cost : ℚ
  new_total_cost : ℚ
  lineitem : Option String
  vendor : Option String
  deriving DecidableEq

/-- The delta dictionary of `StateQueries.calculate_delta`: the
new-asset case (entity absent; `cost_impact` is `None` there) or the
existing-entity case. -/
inductive DeltaResult where
  | newAsset (object_id : String) (new_quantity : ℚ) (new_material : Option String)
  | existing (d : ExistingDelta)
  deriving DecidableEq

/-- `StateQueries.calculate_delta` (lines 70-133). -/
def calculate_delta (store : List (String × ObjectState)) (object_id : String)
    (new_quantity : ℚ) (new_material : Option String) : DeltaResult :=
  match get_object_state store object_id with
  | none => DeltaResult.newAsset object_id new_quantity new_material
  | some st =>
    let current_quantity := st.object.quantity.getD 0
    let cost_per_unit := st.object.cost_per_unit.getD 0
    let quantity_delta := new_quantity - current_quantity
    let cost_impact := quantity_delta * cost_per_unit
    let material_changed :=
      match new_material with
      | none => false
      | some m => decide (some m ≠ st.object.material)
    DeltaResult.existing
      { object_id := object_id, current_quantity := current_quantity,
        new_quantity := new_quantity, quantity_delta := quantity_delta,
        current_material := st.object.material, new_material := new_material,
        material_changed := material_changed, cost_per_unit := cost_per_unit,
        cost_impact := cost_impact, current_total_cost := st.object.total_cost.getD 0,
        new_total_cost := new_quantity * cost_per_unit, lineitem := st.lineitem,
        vendor := st.vendor }

/-- The spec's C6 scenario object: `Wall_A` with `quantity=400` and
`cost_per_unit=20` in the state store. -/
def objWallW : ObjectState := ⟨⟨some 400, some "Concrete", some 20, some 8000⟩, some "B47", some "V1"⟩

/-- A state store containing only `Wall_A`, for the C6 witness. -/
def storeW : List (String × ObjectState) := [("Wall_A", objWallW)]

/-- C1: during dispatch the combined confidence is
`min(reasoningConfidence, extractionConfidence)` when extraction
confidence is supplied and `reasoningConfidence` otherwise, and an
auto-approved budget update is issued if and only if the action kind is
`update_budget`, the effective human-required flag (`requires_human`
defaulting to `True` when absent) is `false`, and the combined
confidence reaches the dispatcher's minimum confidence threshold. -/
theorem claim_C1_confidence_gate (threshold : ℚ) (b : BudgetState) (rec : Recommendation)
    (asset_id budget_code : String) (cost_impact : ℚ) (extraction_confidence : Option ℚ) :
    (∀ c e : ℚ, combined_confidence c (some e) = min c e) ∧
    (∀ c : ℚ, combined_confidence c none = c) ∧
    (has_auto_commit
        (dispatch threshold b rec asset_id budget_code cost_impact extraction_confidence).calls ↔
      rec.action_type = some "update_budget" ∧
      rec.requires_human.getD true = false ∧
      threshold ≤ combined_confidence (rec.confidence_score.getD 0) extraction_confidence) := by
  refine ⟨fun c e => rfl, fun c => rfl, ?_⟩
  by_cases h1 : rec.action_type = some "update_budget"
  · by_cases h2 : rec.requires_human.getD true = false
    · by_cases h3 :
        threshold ≤ combined_confidence (rec.confidence_score.getD 0) extraction_confidence
      · simp [dispatch, h1, h2, h3, should_auto_approve, has_auto_commit,
          apply_ite DispatchStep.calls]
      · simp [dispatch, h1, h2, h3, should_auto_approve, has_auto_commit]
    · simp [dispatch, h1, h2, has_auto_commit, apply_ite DispatchStep.calls]
  · simp [dispatch, h1, has_auto_commit, apply_ite DispatchStep.calls]

/-- C2: when the recommendation's `requires_human` flag is `True`,
dispatch never issues an auto-approved budget update, whatever the
confidence values; the only ledger call is a `flag_for_approval`
routing the change to the pending-approval queue. -/
theorem claim_C2_human_required_never_auto (threshold : ℚ) (b : BudgetState)
    (rec : Recommendation) (asset_id budget_code : String) (cost_impact : ℚ)
    (extraction_confidence : Option ℚ) (h : rec.requires_human = some true) :
    (dispatch threshold b rec asset_id budget_code cost_impact extraction_confidence).calls =
      [BudgetCall.flagForApproval budget_code cost_impact asset_id
        (FlagReasoning.plain (rec.reasoning.getD "No reasoning provided"))] ∧
    ¬ has_auto_commit
        (dispatch threshold b rec asset_id budget_code cost_impact extraction_confidence).calls := by
  have hrh : rec.requires_human.getD true = true := by rw [h]; rfl
  refine ⟨?_, ?_⟩
  · simp [dispatch, hrh]
  · simp [dispatch, hrh, has_auto_commit]

/-- Witness for C2 at the spec's own example: confidence 0.99/0.99,
threshold 0.85, `requires_human = True` — the change is flagged for
approval, never auto-committed. -/
theorem claim_C2_witness :
    recHumanW.requires_human = some true ∧
    ((dispatch (85/100) budgetW recHumanW "Wall_A" "B47" 2000 (some (99/100))).calls =
        [BudgetCall.flagForApproval "B47" 2000 "Wall_A"
          (FlagReasoning.plain (recHumanW.reasoning.getD "No reasoning provided"))] ∧
      ¬ has_auto_commit
          (dispatch (85/100) budgetW recHumanW "Wall_A" "B47" 2000 (some (99/100))).calls) :=
  ⟨rfl,
    claim_C2_human_required_never_auto (85/100) budgetW recHumanW "Wall_A" "B47" 2000
      (some (99/100)) rfl⟩

/-- C9: when the recommendation dictionary omits `requires_human`, the
`dict.get` default `True` applies: dispatch never issues an
auto-approved budget update and routes the change to the
approval/flagging path. -/
theorem claim_C9_missing_requires_human (threshold : ℚ) (b : BudgetState)
    (rec : Recommendation) (asset_id budget_code : String) (cost_impact : ℚ)
    (extraction_confidence : Option ℚ) (h : rec.requires_human = none) :
    (dispatch threshold b rec asset_id budget_code cost_impact extraction_confidence).calls =
      [BudgetCall.flagForApproval budget_code cost_impact asset_id
        (FlagReasoning.plain (rec.reasoning.getD "No reasoning provided"))] ∧
    ¬ has_auto_commit
        (dispatch threshold b rec asset_id budget_code cost_impact extraction_confidence).calls := by
  have hrh : rec.requires_human.getD true = true := by rw [h]; rfl
  refine ⟨?_, ?_⟩
  · simp [dispatch, hrh]
  · simp [dispatch, hrh, has_auto_commit]

/-- Witness for C9: a recommendation with no `requires_human` key and
confidence 0.99 is flagged for approval, never auto-committed. -/
theorem claim_C9_witness :
    recNoFlagW.requires_human = none ∧
    ((dispatch (85/100) budgetW recNoFlagW "Wall_A" "B47" 2000 (some (99/100))).calls =
        [BudgetCall.flagForApproval "B47" 2000 "Wall_A"
          (FlagReasoning.plain (recNoFlagW.reasoning.getD "No reasoning provided"))] ∧
      ¬ has_auto_commit
          (dispatch (85/100) budgetW recNoFlagW "Wall_A" "B47" 2000 (some (99/100))).calls) :=
  ⟨rfl,
    claim_C9_missing_requires_human (85/100) budgetW recNoFlagW "Wall_A" "B47" 2000
      (some (99/100)) rfl⟩

theorem zip5_length {α β γ δ ε : Type} (la : List α) (lb : List β) (lc : List γ)
    (ld : List δ) (le : List ε) :
    (zip5 la lb lc ld le).length =
      min la.length (min lb.length (min lc.length (min ld.length le.length))) := by
  induction la generalizing lb lc ld le with
  | nil => simp [zip5]
  | cons a la ih =>
    cases lb <;> cases lc <;> cases ld <;> cases le
    all_goals simp [zip5, ih]
    all_goals omega

theorem dispatch_batch_go_length (threshold : ℚ)
    (args : List (Recommendation × String × String × ℚ × Option ℚ))
    (acc : BudgetState × List DispatchResult) :
    (dispatch_batch_go threshold acc args).2.length = acc.2.length + args.length := by
  induction args generalizing acc with
  | nil => rfl
  | cons arg rest ih =>
    rw [dispatch_batch_go, ih]
    simp
    omega

/-- C10: `dispatch_batch` silently truncates to the shortest of its
parallel input lists (Python `zip` semantics): it produces exactly one
result per element of the shortest list — the length of the
recommendations list when extraction confidences are absent — and no
outcome for the trailing elements of longer lists, raising no error. -/
theorem claim_C10_batch_truncates (threshold : ℚ) (b : BudgetState)
    (recommendations : List Recommendation) (asset_ids budget_codes : List String)
    (cost_impacts : List ℚ) (extraction_confidences : Option (List ℚ)) :
    (dispatch_batch threshold b recommendations asset_ids budget_codes cost_impacts
        extraction_confidences).2.length =
      min recommendations.length (min asset_ids.length (min budget_codes.length
        (min cost_impacts.length
          (match extraction_confidences with
           | none => recommendations.length
           | some l => l.length)))) := by
  cases extraction_confidences with
  | none =>
    simp [dispatch_batch, dispatch_batch_go_length, zip5_length]
  | some l =>
    simp [dispatch_batch, dispatch_batch_go_length, zip5_length]

/-- Counterexample to C8: a recommendation whose action kind
`"bogus_action"` is none of the recognized kinds, with
`requires_human = True`, is routed to the approval queue exactly like a
recognized flag-for-approval action (the `elif ... or requires_human`
branch), rather than being treated as a fatal dispatch error. -/
theorem claim_C8_counterexample :
    (∀ k ∈ recognized_action_types, recUnknownHumanW.action_type ≠ some k) ∧
    (dispatch (85/100) budgetW recUnknownHumanW "Wall_A" "B47" 2000 none).calls =
      [BudgetCall.flagForApproval "B47" 2000 "Wall_A" (FlagReasoning.plain "odd")] := by
  refine ⟨by decide, rfl⟩

/-- C8 as amended: an unrecognized action kind is not a fatal dispatch
error.  With the effective human-required flag `true` the change is
routed to the approval queue as a plain flag-for-approval; with the flag
`false` it falls to the unknown-action branch, which issues no ledger
call and returns an unsuccessful result with an unknown-action message
(it is reported, not raised). -/
theorem claim_C8_amended (threshold : ℚ) (b : BudgetState) (rec : Recommendation)
    (asset_id budget_code : String) (cost_impact : ℚ) (extraction_confidence : Option ℚ)
    (h : ∀ k ∈ recognized_action_types, rec.action_type ≠ some k) :
    (rec.requires_human.getD true = true →
      (dispatch threshold b rec asset_id budget_code cost_impact extraction_confidence).calls =
        [BudgetCall.flagForApproval budget_code cost_impact asset_id
          (FlagReasoning.plain (rec.reasoning.getD "No reasoning provided"))]) ∧
    (rec.requires_human.getD true = false →
      (dispatch threshold b rec asset_id budget_code cost_impact
          extraction_confidence).calls = [] ∧
      (dispatch threshold b rec asset_id budget_code cost_impact
          extraction_confidence).result.success = false ∧
      (dispatch threshold b rec asset_id budget_code cost_impact
          extraction_confidence).result.message = Msg.unknownAction rec.action_type) := by
  have h1 : rec.action_type ≠ some "update_budget" := h "update_budget" (by simp [recognized_action_types])
  have h2 : rec.action_type ≠ some "flag_for_approval" := h "flag_for_approval" (by simp [recognized_action_types])
  constructor
  · intro hrh
    simp [dispatch, h1, h2, hrh]
  · intro hrh
    refine ⟨?_, ?_, ?_⟩ <;> simp [dispatch, h1, h2, hrh]

/-- Witness for C8 as amended, at a concrete unrecognized action kind
with `requires_human = False`: no ledger call, unsuccessful result,
unknown-action message. -/
theorem claim_C8_witness :
    (∀ k ∈ recognized_action_types, recUnknownNoHumanW.action_type ≠ some k) ∧
    ((recUnknownNoHumanW.requires_human.getD true = true →
      (dispatch (85/100) budgetW recUnknownNoHumanW "Wall_A" "B47" 2000 none).calls =
        [BudgetCall.flagForApproval "B47" 2000 "Wall_A"
          (FlagReasoning.plain (recUnknownNoHumanW.reasoning.getD "No reasoning provided"))]) ∧
    (recUnknownNoHumanW.requires_human.getD true = false →
      (dispatch (85/100) budgetW recUnknownNoHumanW "Wall_A" "B47" 2000 none).calls = [] ∧
      (dispatch (85/100) budgetW recUnknownNoHumanW "Wall_A" "B47" 2000
          none).result.success = false ∧
      (dispatch (85/100) budgetW recUnknownNoHumanW "Wall_A" "B47" 2000
          none).result.message = Msg.unknownAction recUnknownNoHumanW.action_type)) :=
  ⟨by decide,
    claim_C8_amended (85/100) budgetW recUnknownNoHumanW "Wall_A" "B47" 2000 none (by decide)⟩

/-- Counterexample to C7: a gateway response whose recommendation has a
missing rationale and a confidence score of 2.0 (outside `[0,1]`) is
extracted without any failure — the emitted dictionary carries all five
keys with the rationale stored as `None` — and dispatch, whose
`dict.get` defaults never fire on this dictionary, keeps the rationale
`None` in its result and auto-commits using the out-of-range
confidence.  No `MalformedRecommendation` error occurs anywhere. -/
theorem claim_C7_counterexample :
    (badInputW.reasoning = none ∧ badInputW.confidence_score = some 2 ∧
      ¬ ((2 : ℚ) ≤ 1)) ∧
    extract_recommendation [ContentBlock.toolUse "recommend_action" badInputW] =
      some badRecW ∧
    (dispatch_gateway 1 budgetW badRecW "Wall_A" "B47" 2000 none).result.reasoning = none ∧
    (dispatch_gateway 1 budgetW badRecW "Wall_A" "B47" 2000 none).calls =
      [BudgetCall.updateBudget "B47" 2000 "Wall_A" true] := by
  refine ⟨⟨rfl, rfl, by norm_num⟩, rfl, by decide, by decide⟩

/-- C7 as amended: recommendations returned by the reasoning gateway are
not validated at all, and no `MalformedRecommendation` exists.  The
extraction emits every key with the tool-use block's raw value (`None`
for a missing field) and never fails.  Because those keys are present,
dispatch's `dict.get` defaults never fire on the gateway path: the raw
rationale, confidence and human-required values reach the result
untouched (the human-required field is overwritten to `True` only in
the confidence-too-low branch); a missing human-required flag is `None`
— falsy — so such a change can still be auto-committed, with an
out-of-range confidence used as-is in the threshold comparison; and a
missing confidence score raises a `TypeError` in that comparison, which
dispatch's `except` handler converts into an unsuccessful error result
with no ledger call. -/
theorem claim_C7_amended (input : ToolInput) (threshold : ℚ) (b : BudgetState)
    (asset_id budget_code : String) (cost_impact : ℚ) (extraction_confidence : Option ℚ) :
    extract_recommendation [ContentBlock.toolUse "recommend_action" input] =
      some (rec_of_input input) ∧
    (dispatch_gateway threshold b (rec_of_input input) asset_id budget_code cost_impact
        extraction_confidence).result.reasoning = input.reasoning ∧
    (dispatch_gateway threshold b (rec_of_input input) asset_id budget_code cost_impact
        extraction_confidence).result.claude_confidence = input.confidence_score ∧
    ((dispatch_gateway threshold b (rec_of_input input) asset_id budget_code cost_impact
        extraction_confidence).result.requires_human = input.requires_human ∨
      (dispatch_gateway threshold b (rec_of_input input) asset_id budget_code cost_impact
        extraction_confidence).result.requires_human = some true) ∧
    (input.action_type = some "update_budget" → input.requires_human = none →
      ∀ c : ℚ, input.confidence_score = some c →
      threshold ≤ combined_confidence c extraction_confidence →
      (dispatch_gateway threshold b (rec_of_input input) asset_id budget_code cost_impact
          extraction_confidence).calls =
        [BudgetCall.updateBudget budget_code cost_impact asset_id true]) ∧
    (input.action_type = some "update_budget" → truthy input.requires_human = false →
      input.confidence_score = none →
      (dispatch_gateway threshold b (rec_of_input input) asset_id budget_code cost_impact
          extraction_confidence).calls = [] ∧
      (dispatch_gateway threshold b (rec_of_input input) asset_id budget_code cost_impact
          extraction_confidence).result.success = false ∧
      (dispatch_gateway threshold b (rec_of_input input) asset_id budget_code cost_impact
          extraction_confidence).result.message = Msg.errorDispatching) := by
  refine ⟨rfl, ?_, ?_, ?_, ?_, ?_⟩
  · simp only [dispatch_gateway, rec_of_input]
    split <;> (try split) <;> (try split) <;> (try split) <;> rfl
  · simp only [dispatch_gateway, rec_of_input]
    split <;> (try split) <;> (try split) <;> (try split) <;> rfl
  · simp only [dispatch_gateway, rec_of_input]
    split <;> (try split) <;> (try split) <;> (try split) <;>
      first
      | exact Or.inl rfl
      | exact Or.inr rfl
  · intro h1 h2 c h3 h4
    simp [dispatch_gateway, rec_of_input, h1, h2, h3, truthy, should_auto_approve, h4,
      apply_ite GatewayDispatchStep.calls]
  · intro h1 h2 h3
    refine ⟨?_, ?_, ?_⟩ <;> simp [dispatch_gateway, rec_of_input, h1, h2, h3]

/-- Witness for C7 as amended, at a tool input lacking both the
human-required flag and the rationale, with confidence 2.0: the
extraction succeeds, the raw `None` rationale reaches the result, and
the falsy `None` human-required flag lets the change auto-commit. -/
theorem claim_C7_witness :
    (rhNoneInputW.action_type = some "update_budget" ∧
      rhNoneInputW.requires_human = none ∧
      rhNoneInputW.confidence_score = some 2 ∧
      (1 : ℚ) ≤ combined_confidence 2 none) ∧
    (extract_recommendation [ContentBlock.toolUse "recommend_action" rhNoneInputW] =
        some (rec_of_input rhNoneInputW) ∧
      (dispatch_gateway 1 budgetW (rec_of_input rhNoneInputW) "Wall_A" "B47" 2000
          none).result.reasoning = rhNoneInputW.reasoning ∧
      (dispatch_gateway 1 budgetW (rec_of_input rhNoneInputW) "Wall_A" "B47" 2000
          none).calls = [BudgetCall.updateBudget "B47" 2000 "Wall_A" true]) := by
  have h := claim_C7_amended rhNoneInputW 1 budgetW "Wall_A" "B47" 2000 none
  exact ⟨⟨rfl, rfl, rfl, by decide⟩,
    h.1, h.2.1, h.2.2.2.2.1 rfl rfl 2 rfl (by decide)⟩

theorem lookup_insertD {α : Type} (d : List (String × α)) (k i : String) (v : α) :
    lookupD (insertD d k v) i = if i = k then some v else lookupD d i := by
  induction d with
  | nil => simp [insertD, lookupD]
  | cons kv rest ih =>
    obtain ⟨k0, v0⟩ := kv
    by_cases h : k0 = k
    · subst h
      by_cases h2 : i = k0 <;> simp [insertD, lookupD, h2]
    · by_cases h2 : i = k0
      · subst h2
        simp [insertD, lookupD, h, fun he : i = k => h (he ▸ rfl)]
      · simp [insertD, lookupD, h, h2, ih]

theorem mem_insertD {α : Type} (d : List (String × α)) (k : String) (v : α)
    (kv : String × α) (hm : kv ∈ insertD d k v) : kv ∈ d ∨ kv = (k, v) := by
  induction d with
  | nil => simpa [insertD] using hm
  | cons kv0 rest ih =>
    obtain ⟨k0, v0⟩ := kv0
    by_cases h : k0 = k
    · subst h
      simp only [insertD, if_pos rfl] at hm
      rcases List.mem_cons.mp hm with h1 | h1
      · right; exact h1
      · left; exact List.mem_cons_of_mem _ h1
    · simp only [insertD, if_neg h] at hm
      rcases List.mem_cons.mp hm with h1 | h1
      · left; exact h1 ▸ List.mem_cons_self _ _
      · rcases ih h1 with h2 | h2
        · left; exact List.mem_cons_of_mem _ h2
        · right; exact h2

theorem keys_insertD {α : Type} (d : List (String × α)) (k : String) (v : α) :
    (insertD d k v).map Prod.fst =
      if k ∈ d.map Prod.fst then d.map Prod.fst else d.map Prod.fst ++ [k] := by
  induction d with
  | nil => simp [insertD]
  | cons kv0 rest ih =>
    obtain ⟨k0, v0⟩ := kv0
    by_cases h : k0 = k
    · subst h
      simp [insertD]
    · have hne : ¬ k = k0 := fun he => h he.symm
      by_cases h2 : k ∈ rest.map Prod.fst <;>
        simp [insertD, h, h2, hne, ih]

theorem keys_nodup_insertD {α : Type} (d : List (String × α)) (k : String) (v : α)
    (h : (d.map Prod.fst).Nodup) : ((insertD d k v).map Prod.fst).Nodup := by
  rw [keys_insertD]
  split_ifs with h2
  · exact h
  · simp [List.nodup_append, h, h2]

theorem foldl_insert_keys_nodup (xs : List BlueprintAsset)
    (e : List (String × BlueprintAsset)) (he : (e.map Prod.fst).Nodup) :
    ((xs.foldl (fun d a => insertD d a.id a) e).map Prod.fst).Nodup := by
  induction xs generalizing e with
  | nil => exact he
  | cons a rest ih => exact ih _ (keys_nodup_insertD _ _ _ he)

theorem build_lookup_keys_nodup (xs : List BlueprintAsset) :
    ((build_lookup xs).map Prod.fst).Nodup :=
  foldl_insert_keys_nodup xs [] (by simp)

theorem foldl_insert_key_consistent (xs : List BlueprintAsset)
    (e : List (String × BlueprintAsset)) (he : ∀ kv ∈ e, kv.1 = kv.2.id) :
    ∀ kv ∈ xs.foldl (fun d a => insertD d a.id a) e, kv.1 = kv.2.id := by
  induction xs generalizing e with
  | nil => exact he
  | cons a rest ih =>
    refine ih _ ?_
    intro kv hkv
    rcases mem_insertD _ _ _ _ hkv with h | h
    · exact he kv h
    · rw [h]

theorem build_lookup_key_consistent (xs : List BlueprintAsset) :
    ∀ kv ∈ build_lookup xs, kv.1 = kv.2.id :=
  foldl_insert_key_consistent xs [] (by simp)

theorem insertD_append {α : Type} (d : List (String × α)) (k : String) (v : α)
    (h : k ∉ d.map Prod.fst) : insertD d k v = d ++ [(k, v)] := by
  induction d with
  | nil => rfl
  | cons kv0 rest ih =>
    obtain ⟨k0, v0⟩ := kv0
    have hne : k0 ≠ k := by
      intro he
      exact h (by simp [he])
    simp only [insertD, if_neg hne, List.cons_append, List.cons.injEq, true_and]
    exact ih (fun hm => h (by simp [hm]))

theorem foldl_insert_append (xs : List BlueprintAsset) (e : List (String × BlueprintAsset))
    (hn : (xs.map BlueprintAsset.id).Nodup) (hd : ∀ a ∈ xs, a.id ∉ e.map Prod.fst) :
    xs.foldl (fun d a => insertD d a.id a) e = e ++ xs.map (fun a => (a.id, a)) := by
  induction xs generalizing e with
  | nil => simp
  | cons a rest ih =>
    have hn2 : (∀ x ∈ rest, ¬ x.id = a.id) ∧ (rest.map BlueprintAsset.id).Nodup := by
      simpa using hn
    rw [List.foldl_cons, insertD_append e a.id a (hd a (List.mem_cons_self _ _)), ih]
    · simp
    · exact hn2.2
    · intro b hb
      simp only [List.map_append, List.mem_append]
      rintro (h2 | h2)
      · exact hd b (List.mem_cons_of_mem _ hb) h2
      · have hba : b.id = a.id := by simpa using h2
        exact hn2.1 b hb hba

theorem build_lookup_of_nodup (xs : List BlueprintAsset)
    (hn : (xs.map BlueprintAsset.id).Nodup) :
    build_lookup xs = xs.map (fun a => (a.id, a)) := by
  simpa [build_lookup] using foldl_insert_append xs [] hn (by simp)

theorem dict_values_ids (xs : List BlueprintAsset) :
    (dict_values xs).map BlueprintAsset.id = (build_lookup xs).map Prod.fst := by
  simp only [dict_values, List.map_map]
  exact List.map_congr_left (fun kv hkv => (build_lookup_key_consistent xs kv hkv).symm)

theorem dict_values_nodup (xs : List BlueprintAsset) :
    ((dict_values xs).map BlueprintAsset.id).Nodup := by
  rw [dict_values_ids]
  exact build_lookup_keys_nodup xs

theorem build_lookup_dict_values (xs : List BlueprintAsset) :
    build_lookup (dict_values xs) = build_lookup xs := by
  rw [build_lookup_of_nodup _ (dict_values_nodup xs)]
  simp only [dict_values, List.map_map]
  conv_rhs => rw [← List.map_id (build_lookup xs)]
  refine List.map_congr_left ?_
  intro kv hkv
  have h := build_lookup_key_consistent xs kv hkv
  simp [Function.comp, ← h]

/-- Counterexample to C3: a snapshot whose identifier `Wall_A` is
duplicated does not make the diff fail — `compare_blueprints` produces
an ordinary change set, computed from the last asset bearing the
duplicated identifier. -/
theorem claim_C3_counterexample :
    ¬ (dupSnapW.assets.map BlueprintAsset.id).Nodup ∧
    compare_blueprints dupSnapW afterSnapW =
      ⟨[], [],
        [⟨"Wall_A", dupAssetA2, afterAssetA, get_asset_changes dupAssetA2 afterAssetA⟩],
        ⟨0, 0, 1⟩⟩ := by
  exact ⟨by decide, by decide⟩

/-- C3 as amended: the diff never fails on duplicated identifiers (it is
a total function with no validation); a snapshot with duplicated
identifiers yields exactly the change set of the snapshot that keeps,
for each identifier, its last asset at the identifier's first position
(Python dict semantics) — earlier duplicates are silently discarded. -/
theorem claim_C3_amended (before after : BlueprintData) :
    compare_blueprints before after =
      compare_blueprints { before with assets := dict_values before.assets }
        { after with assets := dict_values after.assets } := by
  simp [compare_blueprints, build_lookup_dict_values]

theorem lookupD_foldl_none_iff (xs : List BlueprintAsset)
    (e : List (String × BlueprintAsset)) (i : String) :
    lookupD (xs.foldl (fun d a => insertD d a.id a) e) i = none ↔
      lookupD e i = none ∧ ∀ a ∈ xs, a.id ≠ i := by
  induction xs generalizing e with
  | nil => simp
  | cons a rest ih =>
    rw [List.foldl_cons, ih, lookup_insertD]
    by_cases h : i = a.id
    · simp [h]
    · simp only [if_neg h]
      constructor
      · rintro ⟨h1, h2⟩
        exact ⟨h1, by
          intro b hb
          rcases List.mem_cons.mp hb with hb1 | hb1
          · subst hb1
            exact fun he => h he.symm
          · exact h2 b hb1⟩
      · rintro ⟨h1, h2⟩
        exact ⟨h1, fun b hb => h2 b (List.mem_cons_of_mem _ hb)⟩

theorem lookupD_build_none_iff (xs : List BlueprintAsset) (i : String) :
    lookupD (build_lookup xs) i = none ↔ ∀ a ∈ xs, a.id ≠ i := by
  simpa [build_lookup, lookupD] using lookupD_foldl_none_iff xs [] i

theorem lookupD_map_pair_some_iff (xs : List BlueprintAsset)
    (hn : (xs.map BlueprintAsset.id).Nodup) (i : String) (v : BlueprintAsset) :
    lookupD (xs.map (fun a => (a.id, a))) i = some v ↔ v ∈ xs ∧ v.id = i := by
  induction xs with
  | nil => simp [lookupD]
  | cons a rest ih =>
    have hn2 : (∀ x ∈ rest, ¬ x.id = a.id) ∧ (rest.map BlueprintAsset.id).Nodup := by
      simpa using hn
    simp only [List.map_cons, lookupD]
    by_cases h : i = a.id
    · subst h
      simp only [if_pos rfl]
      constructor
      · rintro h1
        injection h1 with h1
        subst h1
        exact ⟨List.mem_cons_self _ _, rfl⟩
      · rintro ⟨hm, hid⟩
        rcases List.mem_cons.mp hm with h2 | h2
        · simp [h2]
        · exact absurd hid (hn2.1 v h2)
    · rw [if_neg h, ih hn2.2]
      constructor
      · rintro ⟨hm, hid⟩
        exact ⟨List.mem_cons_of_mem _ hm, hid⟩
      · rintro ⟨hm, hid⟩
        rcases List.mem_cons.mp hm with h2 | h2
        · exact absurd (h2 ▸ hid).symm h
        · exact ⟨h2, hid⟩

theorem lookupD_build_some_iff (xs : List BlueprintAsset)
    (hn : (xs.map BlueprintAsset.id).Nodup) (i : String) (v : BlueprintAsset) :
    lookupD (build_lookup xs) i = some v ↔ v ∈ xs ∧ v.id = i := by
  rw [build_lookup_of_nodup xs hn]
  exact lookupD_map_pair_some_iff xs hn i v

theorem lookupD_build_perm (xs ys : List BlueprintAsset)
    (hn : (xs.map BlueprintAsset.id).Nodup) (hp : xs.Perm ys) (i : String) :
    lookupD (build_lookup xs) i = lookupD (build_lookup ys) i := by
  have hny : (ys.map BlueprintAsset.id).Nodup := ((hp.map _).nodup_iff).mp hn
  cases h : lookupD (build_lookup ys) i with
  | some v =>
    have h2 := (lookupD_build_some_iff ys hny i v).mp h
    exact (lookupD_build_some_iff xs hn i v).mpr ⟨hp.mem_iff.mpr h2.1, h2.2⟩
  | none =>
    have h2 := (lookupD_build_none_iff ys i).mp h
    exact (lookupD_build_none_iff xs i).mpr (fun a ha => h2 a (hp.mem_iff.mp ha))

theorem filter_map_pair (xs : List BlueprintAsset) (q : String × BlueprintAsset → Bool) :
    ((xs.map (fun a => (a.id, a))).filter q).map Prod.snd =
      xs.filter (fun a => q (a.id, a)) := by
  induction xs with
  | nil => rfl
  | cons a rest ih =>
    by_cases h : q (a.id, a) = true <;> simp [h, ih]

theorem filterMap_map_pair {β : Type} (xs : List BlueprintAsset)
    (g : String × BlueprintAsset → Option β) :
    (xs.map (fun a => (a.id, a))).filterMap g = xs.filterMap (fun a => g (a.id, a)) := by
  rw [List.filterMap_map]
  rfl

theorem compare_added_nodup (before after : BlueprintData)
    (ha : (after.assets.map BlueprintAsset.id).Nodup) :
    (compare_blueprints before after).added =
      after.assets.filter (fun a => (lookupD (build_lookup before.assets) a.id).isNone) := by
  simp only [compare_blueprints, compare_core]
  rw [build_lookup_of_nodup _ ha, filter_map_pair]

theorem compare_removed_nodup (before after : BlueprintData)
    (hb : (before.assets.map BlueprintAsset.id).Nodup) :
    (compare_blueprints before after).removed =
      before.assets.filter (fun b => (lookupD (build_lookup after.assets) b.id).isNone) := by
  simp only [compare_blueprints, compare_core]
  rw [build_lookup_of_nodup _ hb, filter_map_pair]

theorem compare_modified_nodup (before after : BlueprintData)
    (ha : (after.assets.map BlueprintAsset.id).Nodup) :
    (compare_blueprints before after).modified =
      after.assets.filterMap (fun a =>
        match lookupD (build_lookup before.assets) a.id with
        | some b =>
          if assets_differ b a then some ⟨a.id, b, a, get_asset_changes b a⟩ else none
        | none => none) := by
  simp only [compare_blueprints, compare_core]
  rw [build_lookup_of_nodup _ ha, filterMap_map_pair]

/-- C4: for valid snapshots (identifier-unique on both sides) the diff
classifies an identifier in `after` but not `before` as Added, in
`before` but not `after` as Removed, and in both as Modified exactly
when a tracked field (quantity, material, type, dimensions) differs; a
Modified record carries the before/after assets and per-field change
entries present exactly for the fields that changed, the quantity entry
with its signed delta. -/
theorem claim_C4_diff_classification (before after : BlueprintData)
    (hb : (before.assets.map BlueprintAsset.id).Nodup)
    (ha : (after.assets.map BlueprintAsset.id).Nodup) :
    (∀ a : BlueprintAsset,
      a ∈ (compare_blueprints before after).added ↔
        a ∈ after.assets ∧ ∀ b ∈ before.assets, b.id ≠ a.id) ∧
    (∀ b : BlueprintAsset,
      b ∈ (compare_blueprints before after).removed ↔
        b ∈ before.assets ∧ ∀ a ∈ after.assets, a.id ≠ b.id) ∧
    (∀ m : ModifiedRecord,
      m ∈ (compare_blueprints before after).modified ↔
        m.before ∈ before.assets ∧ m.after ∈ after.assets ∧
        m.before.id = m.asset_id ∧ m.after.id = m.asset_id ∧
        assets_differ m.before m.after = true ∧
        m.changes = get_asset_changes m.before m.after) ∧
    (∀ b a : BlueprintAsset,
      (assets_differ b a = true ↔
        b.quantity ≠ a.quantity ∨ b.material ≠ a.material ∨ b.type ≠ a.type ∨
          dims_eq b.dimensions a.dimensions = false) ∧
      ((get_asset_changes b a).quantity.isSome ↔ b.quantity ≠ a.quantity) ∧
      (∀ qc, (get_asset_changes b a).quantity = some qc →
        qc.before = b.quantity ∧ qc.after = a.quantity ∧
          qc.delta = a.quantity - b.quantity) ∧
      ((get_asset_changes b a).material.isSome ↔ b.material ≠ a.material) ∧
      (∀ sc, (get_asset_changes b a).material = some sc →
        sc.before = b.material ∧ sc.after = a.material) ∧
      ((get_asset_changes b a).type.isSome ↔ b.type ≠ a.type) ∧
      (∀ sc, (get_asset_changes b a).type = some sc →
        sc.before = b.type ∧ sc.after = a.type) ∧
      ((get_asset_changes b a).dimensions.isSome ↔
        dims_eq b.dimensions a.dimensions = false)) := by
  refine ⟨?_, ?_, ?_, ?_⟩
  · intro a
    rw [compare_added_nodup before after ha, List.mem_filter]
    simp [Option.isNone_iff_eq_none, lookupD_build_none_iff]
  · intro b
    rw [compare_removed_nodup before after hb, List.mem_filter]
    simp [Option.isNone_iff_eq_none, lookupD_build_none_iff]
  · intro m
    obtain ⟨mid, mb, ma, mc⟩ := m
    rw [compare_modified_nodup before after ha, List.mem_filterMap]
    constructor
    · rintro ⟨a, ha2, hg⟩
      cases h : lookupD (build_lookup before.assets) a.id with
      | none =>
        simp only [h] at hg
        cases hg
      | some b =>
        simp only [h] at hg
        by_cases hd : assets_differ b a = true
        · rw [if_pos hd] at hg
          injection hg with hg
          obtain ⟨e1, e2, e3, e4⟩ := ModifiedRecord.mk.inj hg
          subst e1
          subst e2
          subst e3
          subst e4
          have hbm := (lookupD_build_some_iff _ hb _ _).mp h
          exact ⟨hbm.1, ha2, hbm.2, rfl, hd, rfl⟩
        · rw [if_neg hd] at hg
          cases hg
    · rintro ⟨h1, h2, h3, h4, h5, h6⟩
      dsimp only at h1 h2 h3 h4 h5 h6
      refine ⟨ma, h2, ?_⟩
      have hl : lookupD (build_lookup before.assets) ma.id = some mb :=
        (lookupD_build_some_iff _ hb _ _).mpr ⟨h1, by rw [h3, h4]⟩
      rw [h4] at hl
      simp [hl, h5, h6, h4]
  · intro b a
    refine ⟨by simp [assets_differ, Bool.or_eq_true, or_assoc], ?_, ?_, ?_, ?_, ?_, ?_, ?_⟩ <;>
      simp only [get_asset_changes] <;> split_ifs <;> simp_all

/-- Witness for C4 at the spec's scenario: before has `Wall_A` at 400,
after has `Wall_A` at 500 plus a new `HVAC_1`; `HVAC_1` is Added,
nothing is Removed, and `Wall_A` is Modified with its quantity change. -/
theorem claim_C4_witness :
    ((beforeSnapC4W.assets.map BlueprintAsset.id).Nodup ∧
      (afterSnapC4W.assets.map BlueprintAsset.id).Nodup) ∧
    hvacW ∈ (compare_blueprints beforeSnapC4W afterSnapC4W).added ∧
    (∀ b, b ∈ (compare_blueprints beforeSnapC4W afterSnapC4W).removed → False) ∧
    (⟨"Wall_A", wallBeforeW, wallAfterW, get_asset_changes wallBeforeW wallAfterW⟩ :
        ModifiedRecord) ∈ (compare_blueprints beforeSnapC4W afterSnapC4W).modified := by
  have h := claim_C4_diff_classification beforeSnapC4W afterSnapC4W (by decide) (by decide)
  refine ⟨⟨by decide, by decide⟩, ?_, ?_, ?_⟩
  · exact (h.1 hvacW).mpr ⟨by decide, by decide⟩
  · intro b hb
    obtain ⟨hmem, hforall⟩ := (h.2.1 b).mp hb
    have hb2 : b = wallBeforeW := by simpa [beforeSnapC4W] using hmem
    exact hforall wallAfterW (by simp [afterSnapC4W]) (by rw [hb2]; rfl)
  · exact (h.2.2.1 _).mpr ⟨by decide, by decide, rfl, rfl, by decide, rfl⟩

/-- Counterexample to C5: permuting the after-snapshot's assets permutes
the diff's `added` list, so the change sets of the original and the
permuted snapshot are not identical (they agree only up to order). -/
theorem claim_C5_counterexample :
    snapYXW.assets.Perm snapXYW.assets ∧
    (snapXYW.assets.map BlueprintAsset.id).Nodup ∧
    compare_blueprints emptySnapW snapYXW ≠ compare_blueprints emptySnapW snapXYW := by
  exact ⟨List.Perm.swap assetX assetY [], by decide, by decide⟩

/-- C5 as amended: the diff is deterministic (it is a pure function of
its two snapshots — re-running it with the same inputs trivially yields
the identical change set), and for identifier-unique snapshots it is
order-independent only up to the ordering of the result lists: permuting
either snapshot's asset list yields change sets whose `added`, `removed`
and `modified` lists are permutations of the originals and whose summary
counts are identical, but not necessarily the identical lists (the entry
order follows the snapshots' asset order, as the counterexample
shows). -/
theorem claim_C5_amended (before after : BlueprintData) (bs cs : List BlueprintAsset)
    (hb : (before.assets.map BlueprintAsset.id).Nodup)
    (ha : (after.assets.map BlueprintAsset.id).Nodup)
    (hpb : bs.Perm before.assets) (hpa : cs.Perm after.assets) :
    ((compare_blueprints { before with assets := bs }
        { after with assets := cs }).added).Perm
      ((compare_blueprints before after).added) ∧
    ((compare_blueprints { before with assets := bs }
        { after with assets := cs }).removed).Perm
      ((compare_blueprints before after).removed) ∧
    ((compare_blueprints { before with assets := bs }
        { after with assets := cs }).modified).Perm
      ((compare_blueprints before after).modified) ∧
    (compare_blueprints { before with assets := bs } { after with assets := cs }).summary =
      (compare_blueprints before after).summary := by
  have hnb : (bs.map BlueprintAsset.id).Nodup := ((hpb.map _).nodup_iff).mpr hb
  have hnc : (cs.map BlueprintAsset.id).Nodup := ((hpa.map _).nodup_iff).mpr ha
  have hlb : ∀ i, lookupD (build_lookup bs) i = lookupD (build_lookup before.assets) i :=
    lookupD_build_perm bs before.assets hnb hpb
  have hlc : ∀ i, lookupD (build_lookup cs) i = lookupD (build_lookup after.assets) i :=
    lookupD_build_perm cs after.assets hnc hpa
  have hadded :
      ((compare_blueprints { before with assets := bs }
        { after with assets := cs }).added).Perm
        ((compare_blueprints before after).added) := by
    rw [compare_added_nodup _ _ hnc, compare_added_nodup before after ha]
    rw [List.filter_congr (fun x _ => by rw [hlb x.id])]
    exact hpa.filter _
  have hremoved :
      ((compare_blueprints { before with assets := bs }
        { after with assets := cs }).removed).Perm
        ((compare_blueprints before after).removed) := by
    rw [compare_removed_nodup _ _ hnb, compare_removed_nodup before after hb]
    rw [List.filter_congr (fun x _ => by rw [hlc x.id])]
    exact hpb.filter _
  have hmodified :
      ((compare_blueprints { before with assets := bs }
        { after with assets := cs }).modified).Perm
        ((compare_blueprints before after).modified) := by
    rw [compare_modified_nodup _ _ hnc, compare_modified_nodup before after ha]
    rw [List.filterMap_congr (fun x _ => by rw [hlb x.id])]
    exact hpa.filterMap _
  refine ⟨hadded, hremoved, hmodified, ?_⟩
  have hs : ∀ x y : BlueprintData,
      (compare_blueprints x y).summary =
        ⟨(compare_blueprints x y).added.length, (compare_blueprints x y).removed.length,
          (compare_blueprints x y).modified.length⟩ := fun x y => rfl
  rw [hs, hs, hadded.length_eq, hremoved.length_eq, hmodified.length_eq]

/-- Witness for C5 as amended, permuting the spec scenario's
after-snapshot: the classified lists come out as permutations with equal
summary counts. -/
theorem claim_C5_witness :
    ((beforeSnapC4W.assets.map BlueprintAsset.id).Nodup ∧
      (afterSnapC4W.assets.map BlueprintAsset.id).Nodup ∧
      ([wallBeforeW].Perm beforeSnapC4W.assets) ∧
      ([hvacW, wallAfterW].Perm afterSnapC4W.assets)) ∧
    (((compare_blueprints { beforeSnapC4W with assets := [wallBeforeW] }
        { afterSnapC4W with assets := [hvacW, wallAfterW] }).added).Perm
      ((compare_blueprints beforeSnapC4W afterSnapC4W).added) ∧
    ((compare_blueprints { beforeSnapC4W with assets := [wallBeforeW] }
        { afterSnapC4W with assets := [hvacW, wallAfterW] }).removed).Perm
      ((compare_blueprints beforeSnapC4W afterSnapC4W).removed) ∧
    ((compare_blueprints { beforeSnapC4W with assets := [wallBeforeW] }
        { afterSnapC4W with assets := [hvacW, wallAfterW] }).modified).Perm
      ((compare_blueprints beforeSnapC4W afterSnapC4W).modified) ∧
    (compare_blueprints { beforeSnapC4W with assets := [wallBeforeW] }
        { afterSnapC4W with assets := [hvacW, wallAfterW] }).summary =
      (compare_blueprints beforeSnapC4W afterSnapC4W).summary) :=
  ⟨⟨by decide, by decide, List.Perm.refl _, List.Perm.swap wallAfterW hvacW []⟩,
    claim_C5_amended beforeSnapC4W afterSnapC4W [wallBeforeW] [hvacW, wallAfterW]
      (by decide) (by decide) (List.Perm.refl _) (List.Perm.swap wallAfterW hvacW [])⟩

/-- C6: for every entity present in the state store the resolved delta
satisfies `quantity_delta = new_quantity - current_quantity` and
`cost_impact = (new_quantity - current_quantity) * cost_per_unit`,
computed exactly (the model uses exact rational arithmetic; the source
applies no rounding). -/
theorem claim_C6_delta (store : List (String × ObjectState)) (object_id : String)
    (new_quantity : ℚ) (new_material : Option String) (st : ObjectState)
    (h : get_object_state store object_id = some st) :
    ∃ d : ExistingDelta,
      calculate_delta store object_id new_quantity new_material = DeltaResult.existing d ∧
      d.current_quantity = st.object.quantity.getD 0 ∧
      d.quantity_delta = new_quantity - st.object.quantity.getD 0 ∧
      d.cost_impact =
        (new_quantity - st.object.quantity.getD 0) * st.object.cost_per_unit.getD 0 := by
  unfold calculate_delta
  rw [h]
  exact ⟨_, rfl, rfl, rfl, rfl⟩

/-- Witness for C6 at the spec's scenario: `current_quantity = 400`,
`cost_per_unit = 20`, `new_quantity = 500` yield `quantity_delta = 100`
and `cost_impact = 2000`. -/
theorem claim_C6_witness :
    get_object_state storeW "Wall_A" = some objWallW ∧
    ∃ d : ExistingDelta,
      calculate_delta storeW "Wall_A" 500 none = DeltaResult.existing d ∧
      d.quantity_delta = 100 ∧ d.cost_impact = 2000 := by
  obtain ⟨d, hd, hcq, hqd, hci⟩ := claim_C6_delta storeW "Wall_A" 500 none objWallW rfl
  refine ⟨rfl, d, hd, ?_, ?_⟩
  · rw [hqd]
    norm_num [objWallW]
  · rw [hci]
    norm_num [objWallW]

end ContextEngine
